import Mathlib

/-!
# pkg/discord/client.go

A shallow embedding of the `discord` package: the `ClientError` wrapper, the
`Client` with its functional options, the constructor `NewClient`, and the
lifecycle methods `Open`, `purge` and `Session`.

The gateway library (`discordgo`) is external.  It is a parameter of the model:
a record of three oracles, each of which sees the whole history of library calls
made so far, so that its answers may change from one call to the next.  Every
run of a function of the package reports the library calls it made, in order.

Error values made outside the package are described by what `fmt` observes of
them, since `ClientError.Error` prints its cause with the verb `%v`: a `Format`
method is used before `Error()`, and a panic of either method is recovered and
printed, as `handleMethods` and `catchPanic` of the package `fmt` do.
-/

namespace Discord

/-- The identity of a `discordgo.Session` value; `*discordgo.Session` is
`Option Session`, with `none` for the nil pointer. -/
structure Session where
  id : Nat
deriving DecidableEq, Repr

/-- The identity of a `slog.Logger` value; `*slog.Logger` is `Option Logger`. -/
structure Logger where
  id : Nat
deriving DecidableEq, Repr

/-- Config holds the configuration for the Client. -/
structure Config where
  Token : String
deriving DecidableEq, Repr

/-- How a method of an error value made outside this package ends: it returns a
text, or it panics; `shown` is the text `fmt` prints for the panic value (the
panic value is taken to print without panicking in turn). -/
inductive MethodEnd where
  | returns (text : String)
  | panics (shown : String)
deriving DecidableEq, Repr

/-- What a `Format` method did when `fmt` called it for the verb `v`: the text it
wrote, and, when it panicked after that, the text `fmt` prints for the panic value. -/
structure FormatRun where
  written : String
  panicked : Option String
deriving DecidableEq, Repr

/-- An error value made outside this package, by what `fmt` and a caller can
observe of it: whether the value is a nil pointer (a typed nil in a non-nil
interface), what its `Error()` method does, and, when its type implements
`fmt.Formatter`, what its `Format` method does under the verb `v`. -/
structure ForeignError where
  nilPointer : Bool
  Error : MethodEnd
  Format : Option FormatRun
deriving DecidableEq, Repr

mutual
/-- A value of Go's interface type `error`: the nil interface, an error value made
outside this package, or a non-nil `*ClientError`. -/
inductive GoError where
  | nil
  | foreign (v : ForeignError)
  | clientError (e : ClientError)
deriving Repr
/-- The struct `ClientError { raw error }`. -/
inductive ClientError where
  | mk (raw : GoError)
deriving Repr
end

deriving instance DecidableEq for GoError, ClientError

/-- An ordinary error value such as `errors.New(msg)`: a non-nil value whose
`Error()` returns `msg` and whose type has no `Format` method. -/
def plainError (msg : String) : GoError :=
  .foreign { nilPointer := false, Error := .returns msg, Format := none }

/-- The comparison `err == nil` on interface values. -/
def GoError.isNil : GoError → Bool
  | .nil => true
  | _ => false

/-- The field `raw` of a `ClientError`. -/
def ClientError.raw : ClientError → GoError
  | .mk raw => raw

/-- NewClientError is `func NewClientError(err error) error`, returning
`&ClientError{raw: err}`. -/
def NewClientError (err : GoError) : GoError :=
  .clientError (.mk err)

/-- What `catchPanic` of `fmt` writes after recovering a panic of the operand's
method `method` under the verb `v`: `<nil>` when the operand is a nil pointer,
otherwise `%!v(PANIC=` method ` method: ` panic value `)`. -/
def catchPanic (nilPointer : Bool) (method : String) (shown : String) : String :=
  if nilPointer then "<nil>"
  else "%!v(PANIC=" ++ method ++ " method: " ++ shown ++ ")"

/-- What `handleMethods` of `fmt` prints under the verb `v` for an error value
made outside this package: a `Format` method comes first and its output is
taken; otherwise the result of `Error()`; a panic of either is recovered by
`catchPanic`. -/
def ForeignError.sprintV (f : ForeignError) : String :=
  match f.Format with
  | some run =>
    match run.panicked with
    | none => run.written
    | some shown => run.written ++ catchPanic f.nilPointer "Format" shown
  | none =>
    match f.Error with
    | .returns text => text
    | .panics shown => catchPanic f.nilPointer "Error" shown

mutual
/-- What the verb `%v` of `fmt.Sprintf` prints for an operand of type `error`:
`<nil>` for the nil interface; for a `*ClientError`, which has no `Format`
method, the result of its `Error()` method; for any other error value what
`handleMethods` prints. -/
def fmtV : GoError → String
  | .nil => "<nil>"
  | .foreign f => f.sprintV
  | .clientError e => ClientError.Error e
/-- The method `func (e *ClientError) Error() string`, which is
`fmt.Sprintf("discord client error: %v", e.raw)`. -/
def ClientError.Error : ClientError → String
  | .mk raw => "discord client error: " ++ fmtV raw
end

/-- The method `func (e *ClientError) Unwrap() error`, returning `e.raw`. -/
def ClientError.Unwrap (e : ClientError) : GoError :=
  e.raw

/-- The method `Error()` called on an interface value of type `error`: the text
it returns, or `none` when the call panics (on the nil interface, or in the
method itself). -/
def GoError.Error : GoError → Option String
  | .nil => none
  | .foreign f =>
    match f.Error with
    | .returns text => some text
    | .panics _ => none
  | .clientError e => some e.Error

/-- Whether the dynamic type of an error value implements `fmt.Formatter`. -/
def GoError.hasFormat : GoError → Bool
  | .nil => false
  | .foreign f => f.Format.isSome
  | .clientError _ => false

/-- A call into the gateway library. -/
inductive Event where
  | New (credential : String)
  | Open (s : Session)
  | Close (s : Session)
deriving DecidableEq, Repr

/-- The gateway library `discordgo`, as far as the package uses it.  Each function
is given the library calls made before it.
`New` is `discordgo.New(token) (*Session, error)`,
`Open` is `(*Session).Open() error`, `Close` is `(*Session).Close() error`. -/
structure Lib where
  New : List Event → String → Option Session × GoError
  Open : List Event → Session → GoError
  Close : List Event → Session → GoError

/-- Client is a struct to provide features to interact with Discord API. -/
structure Client where
  logger : Option Logger
  config : Config
  session : Option Session
deriving DecidableEq, Repr

/-- DiscordConfigProvider is an interface to get the configuration for the Client
(a non-nil interface value whose method `Config()` returns). -/
structure DiscordConfigProvider where
  Config : Unit → Config

/-- How a call ends: it returns a value, or it panics. -/
inductive Ret (α : Type) where
  | value (a : α)
  | panic (msg : String)
deriving DecidableEq, Repr

/-- The result of running code on a `*Client`: how the call ended, the Client the
pointer refers to afterwards, and the library calls made during the run, in order. -/
structure Run (α : Type) where
  ret : Ret α
  client : Client
  calls : List Event
deriving DecidableEq, Repr

/-- A value of the Go type `Option`, which is `func(*Client)`: the nil function
value, or a function that may change the Client, call the library (it sees the
calls made so far) and panic. -/
inductive ClientOption where
  | nilFunc
  | func (f : Client → List Event → Run Unit)

/-- The call `f(c)` of a value of type `Option`; calling the nil function value
panics in the Go runtime. -/
def ClientOption.call : ClientOption → Client → List Event → Run Unit
  | .nilFunc, c, _ =>
    { ret := .panic "runtime error: invalid memory address or nil pointer dereference",
      client := c, calls := [] }
  | .func f, c, hist => f c hist

/-- WithLogger creates an Option to set the logger of the Client. -/
def WithLogger (l : Option Logger) : ClientOption :=
  .func fun c _ => { ret := .value (), client := { c with logger := l }, calls := [] }

/-- defaultClient is a helper function to create a new Client with default
options.  The argument is the result of `logging.DefaultLogger()`, a function of
the package `pkg/logging`; `config` and `session` have their zero values. -/
def defaultClient (DefaultLogger : Option Logger) : Client :=
  { logger := DefaultLogger, config := { Token := "" }, session := none }

/-- The loop `for _, f := range options { f(c) }`; a panic in an option ends it. -/
def applyOptions : List ClientOption → Client → List Event → Run Unit
  | [], c, _ => { ret := .value (), client := c, calls := [] }
  | f :: rest, c, hist =>
    let r := f.call c hist
    match r.ret with
    | .panic msg => { ret := .panic msg, client := r.client, calls := r.calls }
    | .value _ =>
      let r2 := applyOptions rest r.client (hist ++ r.calls)
      { ret := r2.ret, client := r2.client, calls := r.calls ++ r2.calls }

/-- The result of running `NewClient`: the returned pair `(*Client, error)` (the
first component is `none` for the nil pointer, otherwise the Client it points to),
or a panic; and the library calls made. -/
structure NewRun where
  ret : Ret (Option Client × GoError)
  calls : List Event
deriving DecidableEq, Repr

/-- NewClient creates a new Client with the given options. -/
def NewClient (lib : Lib) (DefaultLogger : Option Logger)
    (provider : DiscordConfigProvider) (options : List ClientOption)
    (hist : List Event) : NewRun :=
  let c := defaultClient DefaultLogger
  let c := { c with config := provider.Config () }
  -- create session
  let created := lib.New hist ("Bot " ++ c.config.Token)
  let session := created.1
  let err := created.2
  let made := [Event.New ("Bot " ++ c.config.Token)]
  if err.isNil = false then
    { ret := .value (none, NewClientError err), calls := made }
  else
    let c := { c with session := session }
    let r := applyOptions options c (hist ++ made)
    match r.ret with
    | .panic msg => { ret := .panic msg, calls := made ++ r.calls }
    | .value _ => { ret := .value (some r.client, GoError.nil), calls := made ++ r.calls }

/-- The method `purge`: close the session if there is one, and clear it. -/
def Client.purge (lib : Lib) (c : Client) (hist : List Event) : Run Unit :=
  match c.session with
  | some s =>
    let _ignored := lib.Close hist s
    { ret := .value (), client := { c with session := none }, calls := [Event.Close s] }
  | none => { ret := .value (), client := c, calls := [] }

/-- The method `Open`. -/
def Client.Open (lib : Lib) (c : Client) (hist : List Event) : Run GoError :=
  match c.session with
  | none =>
    { ret := .panic "discord/session: session is nil. Did you created other way than NewClient?",
      client := c, calls := [] }
  | some s =>
    let err := lib.Open hist s
    if err.isNil = false then
      let r := Client.purge lib c (hist ++ [Event.Open s])
      match r.ret with
      | .panic msg => { ret := .panic msg, client := r.client, calls := Event.Open s :: r.calls }
      | .value _ =>
        { ret := .value (NewClientError err), client := r.client,
          calls := Event.Open s :: r.calls }
    else
      { ret := .value GoError.nil, client := c, calls := [Event.Open s] }

/-- The method `func (c *Client) Session() *discordgo.Session`, returning
`c.session`. -/
def Client.Session (c : Client) : Option Session :=
  c.session

/-! ## Concrete libraries, providers and options used as examples -/

/-- A library whose `New` hands out session 1 and whose `Open` always fails. -/
def failingOpenLib : Lib :=
  { New := fun _ _ => (some { id := 1 }, GoError.nil),
    Open := fun _ _ => plainError "websocket: bad handshake",
    Close := fun _ _ => plainError "close failed" }

/-- A library whose `New` hands out session 1 and whose `Open` succeeds. -/
def workingLib : Lib :=
  { New := fun _ _ => (some { id := 1 }, GoError.nil),
    Open := fun _ _ => GoError.nil,
    Close := fun _ _ => GoError.nil }

/-- A library whose `New` fails. -/
def failingNewLib : Lib :=
  { New := fun _ _ => (none, plainError "invalid token"),
    Open := fun _ _ => GoError.nil,
    Close := fun _ _ => GoError.nil }

/-- An error value whose `Error()` returns "plain" and whose `Format` method
writes "FORMATTED" for every verb. -/
def formattedError : GoError :=
  .foreign { nilPointer := false, Error := .returns "plain",
             Format := some { written := "FORMATTED", panicked := none } }

/-- A provider returning `Config{Token: "tok"}`. -/
def tokProvider : DiscordConfigProvider :=
  { Config := fun _ => { Token := "tok" } }

/-- The option `func(c *Client) { _ = c.Open() }`, written with the exported
method `Open` only. -/
def openOption (lib : Lib) : ClientOption :=
  .func fun c hist =>
    let r := Client.Open lib c hist
    match r.ret with
    | .panic msg => { ret := .panic msg, client := r.client, calls := r.calls }
    | .value _ => { ret := .value (), client := r.client, calls := r.calls }

/-- An option that, called on a Client whose session is non-nil, returns without
panicking and leaves the session non-nil.  Nothing is asked of it on a Client
whose session is nil. -/
def ClientOption.KeepsSession (o : ClientOption) : Prop :=
  ∀ (c : Client) (hist : List Event), c.session ≠ none →
    (o.call c hist).ret = .value () ∧ (o.call c hist).client.session ≠ none

/-- The option `func(c *Client) { _ = c.Session().Token }`, which reads through
the session handle and so panics on a Client whose session is nil. -/
def readSessionOption : ClientOption :=
  .func fun c _ =>
    match c.session with
    | none =>
      { ret := .panic "runtime error: invalid memory address or nil pointer dereference",
        client := c, calls := [] }
    | some _ => { ret := .value (), client := c, calls := [] }

/-! ## Helper lemmas -/

theorem GoError.isNil_eq_false_of_ne {e : GoError} (h : e ≠ GoError.nil) : e.isNil = false := by
  cases e <;> simp_all [GoError.isNil]

theorem purge_some (lib : Lib) (c : Client) (hist : List Event) (s : Session)
    (hs : c.session = some s) :
    Client.purge lib c hist =
      { ret := .value (), client := { c with session := none }, calls := [Event.Close s] } := by
  simp [Client.purge, hs]

theorem purge_none (lib : Lib) (c : Client) (hist : List Event) (hs : c.session = none) :
    Client.purge lib c hist = { ret := .value (), client := c, calls := [] } := by
  simp [Client.purge, hs]

theorem Open_of_library_failure (lib : Lib) (c : Client) (hist : List Event) (s : Session)
    (hs : c.session = some s) (hne : lib.Open hist s ≠ GoError.nil) :
    Client.Open lib c hist =
      { ret := .value (NewClientError (lib.Open hist s)),
        client := { c with session := none },
        calls := [Event.Open s, Event.Close s] } := by
  simp [Client.Open, hs, GoError.isNil_eq_false_of_ne hne, purge_some lib c _ s hs]

theorem Open_of_library_success (lib : Lib) (c : Client) (hist : List Event) (s : Session)
    (hs : c.session = some s) (hnil : lib.Open hist s = GoError.nil) :
    Client.Open lib c hist =
      { ret := .value GoError.nil, client := c, calls := [Event.Open s] } := by
  simp [Client.Open, hs, hnil, GoError.isNil]

theorem Open_of_nil_session (lib : Lib) (c : Client) (hist : List Event)
    (hs : c.session = none) :
    Client.Open lib c hist =
      { ret := .panic "discord/session: session is nil. Did you created other way than NewClient?",
        client := c, calls := [] } := by
  simp [Client.Open, hs]

/-- The options loop run on `opts` followed by `WithLogger l`. -/
theorem applyOptions_snoc_WithLogger (l : Option Logger) (opts : List ClientOption) :
    ∀ (c : Client) (hist : List Event),
      applyOptions (opts ++ [WithLogger l]) c hist =
        match (applyOptions opts c hist).ret with
        | .panic msg =>
          { ret := .panic msg, client := (applyOptions opts c hist).client,
            calls := (applyOptions opts c hist).calls }
        | .value _ =>
          { ret := .value (),
            client := { (applyOptions opts c hist).client with logger := l },
            calls := (applyOptions opts c hist).calls } := by
  induction opts with
  | nil =>
    intro c hist
    simp [applyOptions, WithLogger, ClientOption.call]
  | cons f rest ih =>
    intro c hist
    simp only [List.cons_append, applyOptions]
    cases hf : (f.call c hist).ret with
    | panic msg => simp
    | value u =>
      have h := ih (f.call c hist).client (hist ++ (f.call c hist).calls)
      cases hr : (applyOptions rest (f.call c hist).client (hist ++ (f.call c hist).calls)).ret with
      | panic msg =>
        rw [hr] at h
        simp [h, hr]
      | value v =>
        rw [hr] at h
        simp [h, hr]

/-- Options that return and keep a non-nil session: the loop returns and the
session is still non-nil. -/
theorem applyOptions_keeps_session (opts : List ClientOption)
    (hk : ∀ o ∈ opts, o.KeepsSession) :
    ∀ (c : Client) (hist : List Event), c.session ≠ none →
      (applyOptions opts c hist).ret = .value () ∧
        (applyOptions opts c hist).client.session ≠ none := by
  induction opts with
  | nil =>
    intro c hist hc
    simp [applyOptions, hc]
  | cons f rest ih =>
    intro c hist hc
    have hf := hk f (List.mem_cons_self f rest)
    have hrest : ∀ o ∈ rest, o.KeepsSession := fun o ho => hk o (List.mem_cons_of_mem f ho)
    obtain ⟨hret, hsess⟩ := hf c hist hc
    have h2 := ih hrest (f.call c hist).client (hist ++ (f.call c hist).calls) hsess
    simp only [applyOptions, hret]
    exact h2

theorem WithLogger_keepsSession (l : Option Logger) : (WithLogger l).KeepsSession := by
  intro c hist hc
  simpa [WithLogger, ClientOption.call] using hc

theorem readSessionOption_keepsSession : readSessionOption.KeepsSession := by
  intro c hist hc
  cases hs : c.session with
  | none => exact absurd hs hc
  | some s => simp [readSessionOption, ClientOption.call, hs]

/-- An option that opens the session keeps it when the library's `Open` never fails. -/
theorem openOption_keepsSession (lib : Lib)
    (hopen : ∀ (hist : List Event) (s : Session), lib.Open hist s = GoError.nil) :
    (openOption lib).KeepsSession := by
  intro c hist hc
  cases hs : c.session with
  | none => exact absurd hs hc
  | some s =>
    simp [openOption, ClientOption.call, Open_of_library_success lib c hist s hs (hopen hist s),
      hs]

/-- NewClient when the library's `New` returns a nil error. -/
theorem NewClient_of_created (lib : Lib) (dl : Option Logger) (provider : DiscordConfigProvider)
    (options : List ClientOption) (hist : List Event)
    (hok : (lib.New hist ("Bot " ++ (provider.Config ()).Token)).2 = GoError.nil) :
    NewClient lib dl provider options hist =
      match (applyOptions options
          { logger := dl, config := provider.Config (),
            session := (lib.New hist ("Bot " ++ (provider.Config ()).Token)).1 }
          (hist ++ [Event.New ("Bot " ++ (provider.Config ()).Token)])).ret with
      | .panic msg =>
        { ret := .panic msg,
          calls := Event.New ("Bot " ++ (provider.Config ()).Token) ::
            (applyOptions options
              { logger := dl, config := provider.Config (),
                session := (lib.New hist ("Bot " ++ (provider.Config ()).Token)).1 }
              (hist ++ [Event.New ("Bot " ++ (provider.Config ()).Token)])).calls }
      | .value _ =>
        { ret := .value (some (applyOptions options
              { logger := dl, config := provider.Config (),
                session := (lib.New hist ("Bot " ++ (provider.Config ()).Token)).1 }
              (hist ++ [Event.New ("Bot " ++ (provider.Config ()).Token)])).client, GoError.nil),
          calls := Event.New ("Bot " ++ (provider.Config ()).Token) ::
            (applyOptions options
              { logger := dl, config := provider.Config (),
                session := (lib.New hist ("Bot " ++ (provider.Config ()).Token)).1 }
              (hist ++ [Event.New ("Bot " ++ (provider.Config ()).Token)])).calls } := by
  simp only [NewClient, defaultClient, hok, GoError.isNil]
  simp only [Bool.true_eq_false, ↓reduceIte, List.singleton_append]

/-- NewClient when the library's `New` returns a non-nil error. -/
theorem NewClient_of_not_created (lib : Lib) (dl : Option Logger)
    (provider : DiscordConfigProvider) (options : List ClientOption) (hist : List Event)
    (hne : (lib.New hist ("Bot " ++ (provider.Config ()).Token)).2 ≠ GoError.nil) :
    NewClient lib dl provider options hist =
      { ret := .value (none,
          NewClientError (lib.New hist ("Bot " ++ (provider.Config ()).Token)).2),
        calls := [Event.New ("Bot " ++ (provider.Config ()).Token)] } := by
  simp [NewClient, defaultClient, GoError.isNil_eq_false_of_ne hne]

/-! ## The error type -/

/-- C6, as stated, fails: for the non-nil error whose `Error()` returns "plain"
and whose `Format` method writes "FORMATTED", the message of `NewClientError(e)`
is "discord client error: FORMATTED", not "discord client error: plain". -/
theorem NewClientError_message_differs :
    formattedError ≠ GoError.nil ∧
    formattedError.Error = some "plain" ∧
    (NewClientError formattedError).Error = some "discord client error: FORMATTED" ∧
    (NewClientError formattedError).Error ≠ some ("discord client error: " ++ "plain") ∧
    ¬ (∀ (e : GoError) (msg : String), e ≠ GoError.nil → e.Error = some msg →
        (NewClientError e).Error = some ("discord client error: " ++ msg)) := by
  refine ⟨by decide, by decide, by decide, by decide, ?_⟩
  intro hall
  have h := hall formattedError "plain" (by decide) (by decide)
  revert h
  decide

/-- C6, amended: for every non-nil error `e`, the error made by
`NewClientError(e)` is a `*ClientError` whose `Unwrap()` returns `e` and whose
message is "discord client error: " followed by what the verb `%v` prints for
`e`; that is the message of `e` itself whenever the `Error()` method of `e`
returns and the type of `e` has no `Format` method. -/
theorem NewClientError_message_and_unwrap (e : GoError) (hne : e ≠ GoError.nil) :
    ∃ ce : ClientError,
      NewClientError e = GoError.clientError ce ∧
      ce.Unwrap = e ∧
      ce.Error = "discord client error: " ++ fmtV e ∧
      (NewClientError e).Error = some ("discord client error: " ++ fmtV e) ∧
      (∀ msg : String, e.Error = some msg → e.hasFormat = false →
        ce.Error = "discord client error: " ++ msg ∧
        (NewClientError e).Error = some ("discord client error: " ++ msg)) := by
  refine ⟨.mk e, rfl, rfl, by simp [ClientError.Error], by
    simp [NewClientError, GoError.Error, ClientError.Error], ?_⟩
  intro msg hmsg hfmt
  have hv : fmtV e = msg := by
    cases e with
    | nil => exact absurd rfl hne
    | foreign f =>
      cases hF : f.Format with
      | some run => simp [GoError.hasFormat, hF] at hfmt
      | none =>
        cases hE : f.Error with
        | returns text =>
          simp only [GoError.Error, hE, Option.some.injEq] at hmsg
          simp [fmtV, ForeignError.sprintV, hF, hE, hmsg]
        | panics shown => simp [GoError.Error, hE] at hmsg
    | clientError inner =>
      simp only [GoError.Error, Option.some.injEq] at hmsg
      simp [fmtV, hmsg]
  constructor
  · simp [ClientError.Error, hv]
  · simp [NewClientError, GoError.Error, ClientError.Error, hv]

theorem NewClientError_message_and_unwrap_witness :
    plainError "invalid token" ≠ GoError.nil ∧
    ∃ ce : ClientError,
      NewClientError (plainError "invalid token") = GoError.clientError ce ∧
      ce.Unwrap = plainError "invalid token" ∧
      ce.Error = "discord client error: " ++ fmtV (plainError "invalid token") ∧
      (NewClientError (plainError "invalid token")).Error =
        some ("discord client error: " ++ fmtV (plainError "invalid token")) ∧
      (∀ msg : String, (plainError "invalid token").Error = some msg →
        (plainError "invalid token").hasFormat = false →
        ce.Error = "discord client error: " ++ msg ∧
        (NewClientError (plainError "invalid token")).Error =
          some ("discord client error: " ++ msg)) :=
  ⟨by decide, NewClientError_message_and_unwrap (plainError "invalid token") (by decide)⟩

/-! ## The constructor -/

/-- C1: if the library's `New` fails with error `e`, NewClient returns the nil
Client together with a non-nil error that is a `*ClientError` whose `Unwrap()` is
`e`.  No option is applied: the only library call is the one to `New`, and the
result is the one obtained with no option at all, whatever the options are. -/
theorem NewClient_creation_failure (lib : Lib) (dl : Option Logger)
    (provider : DiscordConfigProvider) (options : List ClientOption) (hist : List Event)
    (e : GoError)
    (he : (lib.New hist ("Bot " ++ (provider.Config ()).Token)).2 = e)
    (hne : e ≠ GoError.nil) :
    (∃ ce : ClientError,
      (NewClient lib dl provider options hist).ret = .value (none, GoError.clientError ce) ∧
      (GoError.clientError ce).isNil = false ∧
      ce.Unwrap = e) ∧
    (NewClient lib dl provider options hist).calls =
      [Event.New ("Bot " ++ (provider.Config ()).Token)] ∧
    NewClient lib dl provider options hist = NewClient lib dl provider [] hist := by
  subst he
  rw [NewClient_of_not_created lib dl provider options hist hne,
    NewClient_of_not_created lib dl provider [] hist hne]
  exact ⟨⟨.mk _, rfl, rfl, rfl⟩, rfl, rfl⟩

theorem NewClient_creation_failure_witness :
    (failingNewLib.New [] ("Bot " ++ (tokProvider.Config ()).Token)).2 =
      plainError "invalid token" ∧
    plainError "invalid token" ≠ GoError.nil ∧
    NewClient failingNewLib none tokProvider [ClientOption.nilFunc] [] =
      NewClient failingNewLib none tokProvider [] [] :=
  ⟨by decide, by decide,
    (NewClient_creation_failure failingNewLib none tokProvider [ClientOption.nilFunc] []
      (plainError "invalid token") (by decide) (by decide)).2.2⟩

/-- C2, as stated, fails: with a library whose `New` succeeds and whose `Open`
fails, the option `func(c *Client) { _ = c.Open() }` makes NewClient return a nil
error and a Client whose `Session()` is nil. -/
theorem NewClient_session_may_be_nil :
    failingOpenLib.New [] ("Bot " ++ (tokProvider.Config ()).Token) =
      (some { id := 1 }, GoError.nil) ∧
    (NewClient failingOpenLib none tokProvider [openOption failingOpenLib] []).ret =
      .value (some { logger := none, config := { Token := "tok" }, session := none },
        GoError.nil) ∧
    Client.Session { logger := none, config := { Token := "tok" }, session := none } = none ∧
    ¬ (∀ (lib : Lib) (dl : Option Logger) (provider : DiscordConfigProvider)
        (options : List ClientOption) (hist : List Event) (s : Session),
        lib.New hist ("Bot " ++ (provider.Config ()).Token) = (some s, GoError.nil) →
        ∃ c : Client,
          (NewClient lib dl provider options hist).ret = .value (some c, GoError.nil) ∧
          c.Session ≠ none) := by
  have hrun : (NewClient failingOpenLib none tokProvider [openOption failingOpenLib] []).ret =
      .value (some { logger := none, config := { Token := "tok" }, session := none },
        GoError.nil) := by decide
  refine ⟨by decide, hrun, rfl, ?_⟩
  intro hall
  obtain ⟨c, hc, hsess⟩ :=
    hall failingOpenLib none tokProvider [openOption failingOpenLib] [] { id := 1 } (by decide)
  rw [hrun] at hc
  injection hc with hc
  injection hc with hc _
  injection hc with hc
  subst hc
  exact hsess rfl

/-- C2, amended: if the library's `New` succeeds, NewClient returns a nil error
and a Client whose `Session()` is non-nil exactly when the options, run in order
on the Client that holds the new session, all return without panicking and leave
its session non-nil.  That is the case whenever the new session is non-nil and
every option, called on a Client whose session is non-nil, returns without
panicking and leaves the session non-nil. -/
theorem NewClient_session_nonnil (lib : Lib) (dl : Option Logger)
    (provider : DiscordConfigProvider) (options : List ClientOption) (hist : List Event)
    (hok : (lib.New hist ("Bot " ++ (provider.Config ()).Token)).2 = GoError.nil) :
    ((∃ c : Client,
        (NewClient lib dl provider options hist).ret = .value (some c, GoError.nil) ∧
        c.Session ≠ none) ↔
      ((applyOptions options
          { logger := dl, config := provider.Config (),
            session := (lib.New hist ("Bot " ++ (provider.Config ()).Token)).1 }
          (hist ++ [Event.New ("Bot " ++ (provider.Config ()).Token)])).ret = .value () ∧
        (applyOptions options
          { logger := dl, config := provider.Config (),
            session := (lib.New hist ("Bot " ++ (provider.Config ()).Token)).1 }
          (hist ++ [Event.New ("Bot " ++ (provider.Config ()).Token)])).client.session
          ≠ none)) ∧
    ((lib.New hist ("Bot " ++ (provider.Config ()).Token)).1 ≠ none →
      (∀ o ∈ options, o.KeepsSession) →
      ∃ c : Client,
        (NewClient lib dl provider options hist).ret = .value (some c, GoError.nil) ∧
        c.Session ≠ none) := by
  have hiff : (∃ c : Client,
        (NewClient lib dl provider options hist).ret = .value (some c, GoError.nil) ∧
        c.Session ≠ none) ↔
      ((applyOptions options
          { logger := dl, config := provider.Config (),
            session := (lib.New hist ("Bot " ++ (provider.Config ()).Token)).1 }
          (hist ++ [Event.New ("Bot " ++ (provider.Config ()).Token)])).ret = .value () ∧
        (applyOptions options
          { logger := dl, config := provider.Config (),
            session := (lib.New hist ("Bot " ++ (provider.Config ()).Token)).1 }
          (hist ++ [Event.New ("Bot " ++ (provider.Config ()).Token)])).client.session
          ≠ none) := by
    rw [NewClient_of_created lib dl provider options hist hok]
    cases hr : (applyOptions options
          { logger := dl, config := provider.Config (),
            session := (lib.New hist ("Bot " ++ (provider.Config ()).Token)).1 }
          (hist ++ [Event.New ("Bot " ++ (provider.Config ()).Token)])).ret with
    | panic msg => simp
    | value u =>
      constructor
      · rintro ⟨c, hc, hsess⟩
        simp only [Ret.value.injEq, Prod.mk.injEq, Option.some.injEq, and_true] at hc
        subst hc
        exact ⟨rfl, hsess⟩
      · rintro ⟨_, hsess⟩
        exact ⟨_, rfl, hsess⟩
  refine ⟨hiff, ?_⟩
  intro hsome hkeep
  exact hiff.mpr (applyOptions_keeps_session options hkeep _ _ hsome)

theorem NewClient_session_nonnil_witness :
    (workingLib.New [] ("Bot " ++ (tokProvider.Config ()).Token)).2 = GoError.nil ∧
    (workingLib.New [] ("Bot " ++ (tokProvider.Config ()).Token)).1 ≠ none ∧
    (∀ o ∈ [WithLogger (some { id := 5 }), readSessionOption, openOption workingLib],
      o.KeepsSession) ∧
    ∃ c : Client,
      (NewClient workingLib none tokProvider
          [WithLogger (some { id := 5 }), readSessionOption, openOption workingLib] []).ret =
        .value (some c, GoError.nil) ∧
      c.Session ≠ none :=
  have hkeep : ∀ o ∈ [WithLogger (some { id := 5 }), readSessionOption, openOption workingLib],
      o.KeepsSession := by
    intro o ho
    simp only [List.mem_cons, List.mem_singleton, List.not_mem_nil, or_false] at ho
    rcases ho with rfl | rfl | rfl
    · exact WithLogger_keepsSession _
    · exact readSessionOption_keepsSession
    · exact openOption_keepsSession workingLib (fun _ _ => rfl)
  ⟨by decide, by decide, hkeep,
    (NewClient_session_nonnil workingLib none tokProvider
      [WithLogger (some { id := 5 }), readSessionOption, openOption workingLib] []
      (by decide)).2 (by decide) hkeep⟩

/-- C7: the options run left to right on the Client that already has the default
logger, the config and the session, so `WithLogger(L)` given last wins: when the
options before it return, NewClient returns the Client they left, with logger `L`
and the other fields as they left them (and when one of them panics, so does
NewClient); `WithLogger(L)` changes the logger only; with no options the logger is
the default logger. -/
theorem WithLogger_last_wins (lib : Lib) (dl : Option Logger)
    (provider : DiscordConfigProvider) (opts : List ClientOption) (L : Option Logger)
    (hist : List Event) (t : String)
    (hp : provider.Config () = { Token := t })
    (hok : (lib.New hist ("Bot " ++ t)).2 = GoError.nil) :
    (∀ (c1 : Client) (made : List Event),
      applyOptions opts
          { logger := dl, config := { Token := t }, session := (lib.New hist ("Bot " ++ t)).1 }
          (hist ++ [Event.New ("Bot " ++ t)]) =
        { ret := .value (), client := c1, calls := made } →
      NewClient lib dl provider (opts ++ [WithLogger L]) hist =
        { ret := .value
            (some { logger := L, config := c1.config, session := c1.session }, GoError.nil),
          calls := Event.New ("Bot " ++ t) :: made }) ∧
    (∀ msg : String,
      (applyOptions opts
          { logger := dl, config := { Token := t }, session := (lib.New hist ("Bot " ++ t)).1 }
          (hist ++ [Event.New ("Bot " ++ t)])).ret = .panic msg →
      (NewClient lib dl provider (opts ++ [WithLogger L]) hist).ret = .panic msg) ∧
    (∀ (c : Client) (h : List Event),
      (WithLogger L).call c h =
        { ret := .value (),
          client := { logger := L, config := c.config, session := c.session },
          calls := [] }) ∧
    NewClient lib dl provider [] hist =
      { ret := .value
          (some { logger := dl, config := { Token := t },
                  session := (lib.New hist ("Bot " ++ t)).1 }, GoError.nil),
        calls := [Event.New ("Bot " ++ t)] } := by
  have hok2 : (lib.New hist ("Bot " ++ (provider.Config ()).Token)).2 = GoError.nil := by
    rw [hp]; exact hok
  refine ⟨?_, ?_, ?_, ?_⟩
  · intro c1 made hrun
    rw [NewClient_of_created lib dl provider _ hist hok2, hp,
      applyOptions_snoc_WithLogger, hrun]
  · intro msg hrun
    rw [NewClient_of_created lib dl provider _ hist hok2, hp,
      applyOptions_snoc_WithLogger, hrun]
  · intro c h
    rfl
  · rw [NewClient_of_created lib dl provider [] hist hok2, hp]
    rfl

theorem WithLogger_last_wins_witness :
    tokProvider.Config () = { Token := "tok" } ∧
    (workingLib.New [] ("Bot " ++ "tok")).2 = GoError.nil ∧
    NewClient workingLib (some { id := 0 }) tokProvider
        ([WithLogger (some { id := 5 })] ++ [WithLogger (some { id := 9 })]) [] =
      { ret := .value
          (some { logger := some { id := 9 }, config := { Token := "tok" },
                  session := some { id := 1 } }, GoError.nil),
        calls := Event.New ("Bot " ++ "tok") :: [] } :=
  ⟨rfl, by decide,
    (WithLogger_last_wins workingLib (some { id := 0 }) tokProvider
      [WithLogger (some { id := 5 })] (some { id := 9 }) [] "tok" rfl (by decide)).1
      { logger := some { id := 5 }, config := { Token := "tok" }, session := some { id := 1 } }
      [] (by decide)⟩

/-- C8: for a provider returning `Config{Token: t}`, the code of NewClient calls
the library's `New` once, first of all, with the credential `"Bot " ++ t`: the
calls of a run are that one followed by the calls of the options (none when the
creation fails, none when no option is given); with no option and a successful
creation the returned Client stores the provider's Config. -/
theorem NewClient_credential (lib : Lib) (dl : Option Logger)
    (provider : DiscordConfigProvider) (options : List ClientOption) (hist : List Event)
    (t : String) (hp : provider.Config () = { Token := t }) :
    (NewClient lib dl provider options hist).calls.head? = some (Event.New ("Bot " ++ t)) ∧
    ((lib.New hist ("Bot " ++ t)).2 ≠ GoError.nil →
      (NewClient lib dl provider options hist).calls = [Event.New ("Bot " ++ t)]) ∧
    ((lib.New hist ("Bot " ++ t)).2 = GoError.nil →
      (NewClient lib dl provider options hist).calls =
        Event.New ("Bot " ++ t) ::
          (applyOptions options
            { logger := dl, config := { Token := t },
              session := (lib.New hist ("Bot " ++ t)).1 }
            (hist ++ [Event.New ("Bot " ++ t)])).calls) ∧
    (NewClient lib dl provider [] hist).calls = [Event.New ("Bot " ++ t)] ∧
    ((lib.New hist ("Bot " ++ t)).2 = GoError.nil →
      ∃ c : Client,
        (NewClient lib dl provider [] hist).ret = .value (some c, GoError.nil) ∧
        c.config = provider.Config ()) := by
  have hfail : (lib.New hist ("Bot " ++ t)).2 ≠ GoError.nil →
      ∀ os : List ClientOption,
        (NewClient lib dl provider os hist).calls = [Event.New ("Bot " ++ t)] := by
    intro hne os
    have hne2 : (lib.New hist ("Bot " ++ (provider.Config ()).Token)).2 ≠ GoError.nil := by
      rw [hp]; exact hne
    rw [NewClient_of_not_created lib dl provider os hist hne2, hp]
  have hsucc : (lib.New hist ("Bot " ++ t)).2 = GoError.nil →
      ∀ os : List ClientOption,
        (NewClient lib dl provider os hist).calls =
          Event.New ("Bot " ++ t) ::
            (applyOptions os
              { logger := dl, config := { Token := t },
                session := (lib.New hist ("Bot " ++ t)).1 }
              (hist ++ [Event.New ("Bot " ++ t)])).calls := by
    intro hok os
    have hok2 : (lib.New hist ("Bot " ++ (provider.Config ()).Token)).2 = GoError.nil := by
      rw [hp]; exact hok
    rw [NewClient_of_created lib dl provider os hist hok2, hp]
    split <;> rfl
  refine ⟨?_, fun hne => hfail hne options, fun hok => hsucc hok options, ?_, ?_⟩
  · by_cases h : (lib.New hist ("Bot " ++ t)).2 = GoError.nil
    · rw [hsucc h options]; rfl
    · rw [hfail h options]; rfl
  · by_cases h : (lib.New hist ("Bot " ++ t)).2 = GoError.nil
    · rw [hsucc h []]; rfl
    · rw [hfail h []]
  · intro hok
    have hok2 : (lib.New hist ("Bot " ++ (provider.Config ()).Token)).2 = GoError.nil := by
      rw [hp]; exact hok
    rw [NewClient_of_created lib dl provider [] hist hok2]
    exact ⟨_, rfl, rfl⟩

theorem NewClient_credential_witness :
    tokProvider.Config () = { Token := "tok" } ∧
    (NewClient workingLib none tokProvider [] []).calls = [Event.New ("Bot " ++ "tok")] :=
  ⟨rfl, (NewClient_credential workingLib none tokProvider [] [] "tok" rfl).2.2.2.1⟩

/-! ## Open and teardown -/

/-- C3: on a Client with a non-nil session, if the library's `Open` fails with
error `e`, then `Open` returns a `*ClientError` whose `Unwrap()` is `e`, and
afterwards `Session()` is nil: the library calls of the run are `Open` and then
one `Close` of that session, whatever `Close` returns; logger and config are kept. -/
theorem Open_failure_tears_down (lib : Lib) (c : Client) (hist : List Event) (s : Session)
    (e : GoError) (hs : c.session = some s) (he : lib.Open hist s = e)
    (hne : e ≠ GoError.nil) :
    (∃ ce : ClientError,
      (Client.Open lib c hist).ret = .value (GoError.clientError ce) ∧ ce.Unwrap = e) ∧
    (Client.Open lib c hist).client.Session = none ∧
    (Client.Open lib c hist).calls = [Event.Open s, Event.Close s] ∧
    (Client.Open lib c hist).client.logger = c.logger ∧
    (Client.Open lib c hist).client.config = c.config := by
  subst he
  rw [Open_of_library_failure lib c hist s hs hne]
  exact ⟨⟨.mk _, rfl, rfl⟩, rfl, rfl, rfl, rfl⟩

theorem Open_failure_tears_down_witness :
    failingOpenLib.Open [Event.New "Bot tok"] { id := 1 } =
      plainError "websocket: bad handshake" ∧
    plainError "websocket: bad handshake" ≠ GoError.nil ∧
    (Client.Open failingOpenLib
        { logger := none, config := { Token := "tok" }, session := some { id := 1 } }
        [Event.New "Bot tok"]).client.Session = none :=
  ⟨by decide, by decide,
    (Open_failure_tears_down failingOpenLib
      { logger := none, config := { Token := "tok" }, session := some { id := 1 } }
      [Event.New "Bot tok"] { id := 1 } (plainError "websocket: bad handshake")
      rfl (by decide) (by decide)).2.1⟩

/-- C4: on a Client whose session is nil, `Open` panics, with no library call and
the Client unchanged; on a Client whose session is non-nil, `Open` returns. -/
theorem Open_panics_exactly_on_nil_session (lib : Lib) (c : Client) (hist : List Event) :
    (c.session = none →
      ∃ msg : String,
        Client.Open lib c hist = { ret := .panic msg, client := c, calls := [] }) ∧
    (c.session ≠ none →
      ∃ err : GoError, (Client.Open lib c hist).ret = .value err) := by
  constructor
  · intro hs
    exact ⟨_, Open_of_nil_session lib c hist hs⟩
  · intro hs
    cases hc : c.session with
    | none => exact absurd hc hs
    | some s =>
      by_cases h : lib.Open hist s = GoError.nil
      · exact ⟨_, by rw [Open_of_library_success lib c hist s hc h]⟩
      · exact ⟨_, by rw [Open_of_library_failure lib c hist s hc h]⟩

theorem Open_panics_exactly_on_nil_session_witness :
    (∃ msg : String,
      Client.Open workingLib { logger := none, config := { Token := "tok" }, session := none }
          [] =
        { ret := .panic msg,
          client := { logger := none, config := { Token := "tok" }, session := none },
          calls := [] }) ∧
    (∃ err : GoError,
      (Client.Open failingOpenLib
        { logger := none, config := { Token := "tok" }, session := some { id := 1 } }
        []).ret = .value err) :=
  ⟨(Open_panics_exactly_on_nil_session workingLib
      { logger := none, config := { Token := "tok" }, session := none } []).1 rfl,
    (Open_panics_exactly_on_nil_session failingOpenLib
      { logger := none, config := { Token := "tok" }, session := some { id := 1 } } []).2
      (by decide)⟩

/-- C5: on a Client with a non-nil session, if the library's `Open` succeeds, then
`Open` returns nil and leaves the Client as it was (logger, config and session
handle); the only library call is that `Open`, so `Close` is not called. -/
theorem Open_success_frame (lib : Lib) (c : Client) (hist : List Event) (s : Session)
    (hs : c.session = some s) (hok : lib.Open hist s = GoError.nil) :
    (Client.Open lib c hist).ret = .value GoError.nil ∧
    (Client.Open lib c hist).client = c ∧
    (Client.Open lib c hist).client.Session = some s ∧
    (Client.Open lib c hist).calls = [Event.Open s] ∧
    Event.Close s ∉ (Client.Open lib c hist).calls := by
  rw [Open_of_library_success lib c hist s hs hok]
  refine ⟨rfl, rfl, hs, rfl, ?_⟩
  simp

theorem Open_success_frame_witness :
    workingLib.Open [Event.New "Bot tok"] { id := 1 } = GoError.nil ∧
    (Client.Open workingLib
        { logger := some { id := 3 }, config := { Token := "tok" }, session := some { id := 1 } }
        [Event.New "Bot tok"]).client =
      { logger := some { id := 3 }, config := { Token := "tok" }, session := some { id := 1 } } :=
  ⟨by decide,
    (Open_success_frame workingLib
      { logger := some { id := 3 }, config := { Token := "tok" }, session := some { id := 1 } }
      [Event.New "Bot tok"] { id := 1 } rfl (by decide)).2.1⟩

/-- C9: teardown is idempotent.  For every Client, `purge` returns, leaves the
session nil and the logger and config as they were; a second `purge` returns,
changes nothing and calls nothing; over the two calls the library's `Close` is
called once, on the session the Client had, or not at all when it had none. -/
theorem purge_idempotent (lib : Lib) (c : Client) (hist : List Event) :
    (Client.purge lib c hist).ret = .value () ∧
    (Client.purge lib c hist).client.Session = none ∧
    (Client.purge lib c hist).client.logger = c.logger ∧
    (Client.purge lib c hist).client.config = c.config ∧
    Client.purge lib (Client.purge lib c hist).client (hist ++ (Client.purge lib c hist).calls) =
      { ret := .value (), client := (Client.purge lib c hist).client, calls := [] } ∧
    (Client.purge lib c hist).calls ++
        (Client.purge lib (Client.purge lib c hist).client
          (hist ++ (Client.purge lib c hist).calls)).calls =
      (match c.session with
        | some s => [Event.Close s]
        | none => []) ∧
    ((Client.purge lib c hist).calls ++
        (Client.purge lib (Client.purge lib c hist).client
          (hist ++ (Client.purge lib c hist).calls)).calls).length ≤ 1 := by
  cases hc : c.session with
  | none =>
    rw [purge_none lib c hist hc]
    simp only [List.append_nil]
    rw [purge_none lib c hist hc]
    simp [Client.Session, hc]
  | some s =>
    rw [purge_some lib c hist s hc]
    simp only []
    rw [purge_none lib _ _ rfl]
    simp [Client.Session]

/-- C10: a Client returned by a successful NewClient reaches the panic path: if a
first `Open` on it fails (returns a non-nil error), its session is nil afterwards
and every later `Open` on it panics, with no library call, instead of returning. -/
theorem Open_after_failed_Open_panics (lib : Lib) (dl : Option Logger)
    (provider : DiscordConfigProvider) (options : List ClientOption) (hist0 : List Event)
    (c : Client)
    (_hnew : (NewClient lib dl provider options hist0).ret = .value (some c, GoError.nil))
    (hist : List Event) (e : GoError)
    (hfirst : (Client.Open lib c hist).ret = .value e) (hne : e ≠ GoError.nil) :
    (Client.Open lib c hist).client.Session = none ∧
    (∃ msg : String,
      Client.Open lib (Client.Open lib c hist).client (hist ++ (Client.Open lib c hist).calls) =
        { ret := .panic msg, client := (Client.Open lib c hist).client, calls := [] }) ∧
    (∀ (lib2 : Lib) (later : List Event),
      ∃ msg : String,
        Client.Open lib2 (Client.Open lib c hist).client later =
          { ret := .panic msg, client := (Client.Open lib c hist).client, calls := [] }) := by
  have hnil : (Client.Open lib c hist).client.session = none := by
    cases hc : c.session with
    | none =>
      rw [Open_of_nil_session lib c hist hc] at hfirst
      cases hfirst
    | some s =>
      by_cases h : lib.Open hist s = GoError.nil
      · rw [Open_of_library_success lib c hist s hc h] at hfirst
        injection hfirst with hfirst
        exact absurd hfirst.symm hne
      · rw [Open_of_library_failure lib c hist s hc h]
  exact ⟨hnil, ⟨_, Open_of_nil_session lib _ _ hnil⟩,
    fun lib2 later => ⟨_, Open_of_nil_session lib2 _ later hnil⟩⟩

theorem Open_after_failed_Open_panics_witness :
    (NewClient failingOpenLib none tokProvider [] []).ret =
      .value (some { logger := none, config := { Token := "tok" }, session := some { id := 1 } },
        GoError.nil) ∧
    (Client.Open failingOpenLib
        { logger := none, config := { Token := "tok" }, session := some { id := 1 } }
        [Event.New "Bot tok"]).ret =
      .value (NewClientError (plainError "websocket: bad handshake")) ∧
    NewClientError (plainError "websocket: bad handshake") ≠ GoError.nil ∧
    (∃ msg : String,
      Client.Open failingOpenLib
          (Client.Open failingOpenLib
            { logger := none, config := { Token := "tok" }, session := some { id := 1 } }
            [Event.New "Bot tok"]).client
          ([Event.New "Bot tok"] ++
            (Client.Open failingOpenLib
              { logger := none, config := { Token := "tok" }, session := some { id := 1 } }
              [Event.New "Bot tok"]).calls) =
        { ret := .panic msg,
          client := (Client.Open failingOpenLib
            { logger := none, config := { Token := "tok" }, session := some { id := 1 } }
            [Event.New "Bot tok"]).client,
          calls := [] }) :=
  ⟨by decide, by decide, by decide,
    (Open_after_failed_Open_panics failingOpenLib none tokProvider [] []
      { logger := none, config := { Token := "tok" }, session := some { id := 1 } }
      (by decide) [Event.New "Bot tok"]
      (NewClientError (plainError "websocket: bad handshake")) (by decide)
      (by decide)).2.1⟩

end Discord
